import Mathlib

/-!
Shallow embedding of the fraud-screening engine of the tracker repository
(class FraudDetector: detectFraud, checkDuplicateAmounts,
checkSuspiciousPatterns, checkAmountThresholds, checkRapidSubmissions,
getFraudStatistics), together with proofs of the specified properties.

Monetary amounts are modelled as exact rationals; dates and creation
timestamps as integer milliseconds (JS Date.getTime()).  The expense
record store is modelled as a list of persisted records plus flags saying
whether each kind of store query throws; a query returns Except, with
Except.error modelling a rejected promise.
-/

/-- A persisted expense record as returned by store queries. -/
structure StoredExpense where
  id : Nat
  userId : Nat
  amount : ℚ
  description : String
  date : Int
  createdAt : Int
  isFlagged : Bool
  status : String
deriving DecidableEq

/-- The candidate expense passed to detectFraud; id is absent for a
not-yet-persisted record. -/
structure Candidate where
  id : Option Nat
  userId : Nat
  amount : ℚ
  description : String
  date : Int
deriving DecidableEq

/-- Evidence attached by the duplicate-amount check: related record id,
its date, and the absolute time difference in minutes. -/
structure RelatedExpense where
  id : Nat
  date : Int
  timeDifference : ℚ
deriving DecidableEq

/-- One evaluator verdict: isFlagged with reason (empty when unflagged). -/
structure Verdict where
  isFlagged : Bool
  reason : String
  relatedExpenses : List RelatedExpense
deriving DecidableEq

/-- The Coordinator decision returned by detectFraud. -/
structure Decision where
  isFlagged : Bool
  reason : String
  details : List Verdict
deriving DecidableEq

/-- The expense record store: its contents plus, for each query site,
whether that query operation throws. -/
structure Store where
  expenses : List StoredExpense
  dupFails : Bool
  descFails : Bool
  rapidFails : Bool
  countFails : Bool
deriving DecidableEq

/-- Expense.find: returns the matching records, or an error when the
query operation throws. -/
def storeFind (fails : Bool) (es : List StoredExpense) (p : StoredExpense → Bool) :
    Except Unit (List StoredExpense) :=
  if fails then Except.error () else Except.ok (es.filter p)

/-- The Mongo clause id ne expense id: excludes the candidate record
itself when the candidate carries an id. -/
def notSelf (cid : Option Nat) (e : StoredExpense) : Bool :=
  match cid with
  | some i => e.id != i
  | none => true

/-- Case-insensitive substring test on character lists, modelling the
regex query with option i built from the candidate description. -/
def listContainsSub (pat : List Char) : List Char → Bool
  | [] => pat.isEmpty
  | c :: rest => pat.isPrefixOf (c :: rest) || listContainsSub pat rest

/-- Lower-cased character list of a string. -/
def lowerList (s : String) : List Char := s.data.map Char.toLower

/-- Case-insensitive match of the candidate description pattern against a
stored description. -/
def descMatchesCI (pat s : String) : Bool :=
  listContainsSub (lowerList pat) (lowerList s)

/-- Query filter of checkDuplicateAmounts: same owner, exactly equal
amount, date within plus or minus 60 minutes inclusive, not the candidate
record itself. -/
def dupQueryPred (c : Candidate) (e : StoredExpense) : Bool :=
  e.userId == c.userId && e.amount == c.amount &&
    decide (c.date - 60 * 60 * 1000 ≤ e.date) &&
    decide (e.date ≤ c.date + 60 * 60 * 1000) &&
    notSelf c.id e

/-- Query filter of the description query in checkSuspiciousPatterns:
same owner, case-insensitive description match, not the candidate record,
created within the last 7 days relative to now. -/
def descQueryPred (now : Int) (c : Candidate) (e : StoredExpense) : Bool :=
  e.userId == c.userId && descMatchesCI c.description e.description &&
    notSelf c.id e &&
    decide (now - 7 * 24 * 60 * 60 * 1000 ≤ e.createdAt)

/-- Query filter of checkRapidSubmissions: same owner, created at or
after the candidate date minus 30 minutes, not the candidate record. -/
def rapidQueryPred (c : Candidate) (e : StoredExpense) : Bool :=
  e.userId == c.userId &&
    decide (c.date - 30 * 60 * 1000 ≤ e.createdAt) &&
    notSelf c.id e

/-- Truncation toward zero, as the JS remainder operator truncates. -/
def jsTrunc (q : ℚ) : ℤ := if q < 0 then Rat.ceil q else Rat.floor q

/-- JS remainder a % n on numbers. -/
def jsMod (a n : ℚ) : ℚ := a - n * (jsTrunc (a / n) : ℚ)

/-- The round-number condition of checkSuspiciousPatterns. -/
def roundNumberFires (a : ℚ) : Bool :=
  decide (jsMod a 100 = 0) || decide (jsMod a 50 = 0) || decide (jsMod a 25 = 0)

/-- Decimal digits of the fractional part (JS number printing for the
terminating decimals that monetary amounts are). -/
def fracDigits : Nat → ℚ → List Char
  | 0, _ => []
  | Nat.succ fuel, q =>
    if q = 0 then []
    else
      let q10 := q * 10
      let d := Rat.floor q10
      Char.ofNat (48 + d.toNat) :: fracDigits fuel (q10 - (d : ℚ))

/-- Rendering of a number inside a template string, as JS string
interpolation renders it. -/
def numStr (q : ℚ) : String :=
  let sign := if q < 0 then "-" else ""
  let a := |q|
  let ip := Rat.floor a
  let fp := a - (ip : ℚ)
  if fp = 0 then sign ++ toString ip
  else sign ++ toString ip ++ "." ++ String.mk (fracDigits 20 fp)

/-- The unflagged verdict returned by every check when nothing fires. -/
def unflagged : Verdict := { isFlagged := false, reason := "", relatedExpenses := [] }

/-- checkDuplicateAmounts: query, flag when at least one match; a store
failure is caught and yields the unflagged verdict. -/
def checkDuplicateAmounts (s : Store) (c : Candidate) : Verdict :=
  match storeFind s.dupFails s.expenses (dupQueryPred c) with
  | Except.error _ => unflagged
  | Except.ok dups =>
    if 0 < dups.length then
      { isFlagged := true
        reason := "Duplicate amount ($" ++ numStr c.amount ++ ") found within 60 minutes"
        relatedExpenses := dups.map (fun e =>
          { id := e.id, date := e.date
            timeDifference := ((c.date - e.date).natAbs : ℚ) / (1000 * 60) }) }
    else unflagged

/-- Number of matches of the description query. -/
def descMatchCount (now : Int) (s : Store) (c : Candidate) : Nat :=
  (s.expenses.filter (descQueryPred now c)).length

/-- The suspiciousPatterns list pushed by checkSuspiciousPatterns: the
round-number fragment, then the similar-descriptions fragment when more
than 2 matches. -/
def patternFragments (a : ℚ) (similarCount : Nat) : List String :=
  (if roundNumberFires a then ["Round number amount"] else []) ++
    (if 2 < similarCount then ["Similar descriptions in recent submissions"] else [])

/-- checkSuspiciousPatterns: the description query is not guarded by any
try/catch, so a store failure propagates as an error. -/
def checkSuspiciousPatterns (now : Int) (s : Store) (c : Candidate) :
    Except Unit Verdict :=
  match storeFind s.descFails s.expenses (descQueryPred now c) with
  | Except.error e => Except.error e
  | Except.ok similar =>
    let pats := patternFragments c.amount similar.length
    if 0 < pats.length then
      Except.ok { isFlagged := true, reason := String.intercalate "; " pats,
                  relatedExpenses := [] }
    else Except.ok unflagged

/-- checkAmountThresholds: pure in the amount; VERY_HIGH = 5000 checked
before HIGH = 1000. -/
def checkAmountThresholds (c : Candidate) : Verdict :=
  if 5000 ≤ c.amount then
    { isFlagged := true
      reason := "Very high amount ($" ++ numStr c.amount ++ ") requires additional review"
      relatedExpenses := [] }
  else if 1000 ≤ c.amount then
    { isFlagged := true
      reason := "High amount ($" ++ numStr c.amount ++ ") flagged for review"
      relatedExpenses := [] }
  else unflagged

/-- Number of matches of the rapid-submission query. -/
def rapidMatchCount (s : Store) (c : Candidate) : Nat :=
  (s.expenses.filter (rapidQueryPred c)).length

/-- checkRapidSubmissions: flag when at least 5 matches; a store failure
is caught and yields the unflagged verdict. -/
def checkRapidSubmissions (s : Store) (c : Candidate) : Verdict :=
  match storeFind s.rapidFails s.expenses (rapidQueryPred c) with
  | Except.error _ => unflagged
  | Except.ok recent =>
    if 5 ≤ recent.length then
      { isFlagged := true
        reason := "Too many submissions (" ++ toString (recent.length + 1) ++ ") within 30 minutes"
        relatedExpenses := [] }
    else unflagged

/-- detectFraud: run the four checks in order duplicate, pattern,
threshold, rapid, keep the flagged verdicts, and aggregate. -/
def detectFraud (now : Int) (s : Store) (c : Candidate) : Except Unit Decision :=
  let dup := checkDuplicateAmounts s c
  match checkSuspiciousPatterns now s c with
  | Except.error e => Except.error e
  | Except.ok pat =>
    let amt := checkAmountThresholds c
    let rapid := checkRapidSubmissions s c
    let results :=
      (if dup.isFlagged then [dup] else []) ++
        (if pat.isFlagged then [pat] else []) ++
          (if amt.isFlagged then [amt] else []) ++
            (if rapid.isFlagged then [rapid] else [])
    Except.ok
      { isFlagged := decide (0 < results.length)
        reason := String.intercalate "; " (results.map Verdict.reason)
        details := results }

/-- A JS value that is either a number or a string, as the fraudRate
field holds a string in one branch and a number in the others. -/
inductive JsVal where
  | num (q : ℚ)
  | str (s : String)
deriving DecidableEq

/-- The object returned by getFraudStatistics. -/
structure FraudStats where
  totalExpenses : Nat
  flaggedExpenses : Nat
  pendingReview : Nat
  fraudRate : JsVal
deriving DecidableEq

/-- toFixed(2) on a nonnegative number: round to 2 decimals, ties up. -/
def toFixed2 (q : ℚ) : String :=
  let n : ℤ := Rat.floor (q * 100 + 1 / 2)
  let r : Nat := (n % 100).toNat
  toString (n / 100) ++ "." ++ (if r < 10 then "0" else "") ++ toString r

/-- getFraudStatistics: three countDocuments queries and the rate; on a
store failure the catch block returns the all-zero object with the
number 0 as fraudRate, and the success branch also puts the number 0
there when the store is empty. -/
def getFraudStatistics (s : Store) : FraudStats :=
  if s.countFails then
    { totalExpenses := 0, flaggedExpenses := 0, pendingReview := 0
      fraudRate := JsVal.num 0 }
  else
    let total := s.expenses.length
    let flagged := (s.expenses.filter (fun e => e.isFlagged)).length
    let pending := (s.expenses.filter (fun e => e.isFlagged && e.status == "pending")).length
    { totalExpenses := total, flaggedExpenses := flagged, pendingReview := pending
      fraudRate :=
        if 0 < total then JsVal.str (toFixed2 ((flagged : ℚ) / (total : ℚ) * 100))
        else JsVal.num 0 }

/-! Helper lemmas shared by the claim theorems. -/

lemma data_append (s t : String) : (s ++ t).data = s.data ++ t.data := by
  cases s; cases t; rfl

lemma append_ne_empty (a b : String) (h : 0 < a.length) : a ++ b ≠ "" := by
  intro he
  have hl : (a ++ b).length = ("" : String).length := by rw [he]
  have h0 : ("" : String).length = 0 := rfl
  rw [String.length_append, h0] at hl
  omega

lemma append_ne_of_head {a b : String} (x y : String)
    (hh : a.data.head? ≠ b.data.head?) (ha : a.data ≠ []) (hb : b.data ≠ []) :
    a ++ x ≠ b ++ y := by
  intro he
  have hd : (a ++ x).data = (b ++ y).data := congrArg String.data he
  rw [data_append, data_append] at hd
  rcases hda : a.data with _ | ⟨c, t⟩
  · exact ha hda
  rcases hdb : b.data with _ | ⟨c2, t2⟩
  · exact hb hdb
  rw [hda, hdb] at hd
  simp only [List.cons_append, List.cons.injEq] at hd
  apply hh
  rw [hda, hdb, hd.1]
  rfl

lemma bne_empty_of_ne {s : String} (h : s ≠ "") : (s != "") = true := bne_iff_ne.mpr h

lemma notSelf_iff (cid : Option Nat) (e : StoredExpense) :
    notSelf cid e = true ↔ cid ≠ some e.id := by
  cases cid with
  | none => simp [notSelf]
  | some i =>
    simp only [notSelf, bne_iff_ne, ne_eq, Option.some.injEq]
    constructor
    · intro h hie
      exact h hie.symm
    · intro h hie
      exact h hie.symm

lemma dupQueryPred_iff (c : Candidate) (e : StoredExpense) :
    dupQueryPred c e = true ↔
      e.userId = c.userId ∧ e.amount = c.amount ∧
        c.date - 60 * 60 * 1000 ≤ e.date ∧ e.date ≤ c.date + 60 * 60 * 1000 ∧
        c.id ≠ some e.id := by
  simp [dupQueryPred, notSelf_iff, and_assoc]

lemma descQueryPred_iff (now : Int) (c : Candidate) (e : StoredExpense) :
    descQueryPred now c e = true ↔
      e.userId = c.userId ∧ descMatchesCI c.description e.description = true ∧
        c.id ≠ some e.id ∧ now - 7 * 24 * 60 * 60 * 1000 ≤ e.createdAt := by
  simp [descQueryPred, notSelf_iff, and_assoc]

lemma rapidQueryPred_iff (c : Candidate) (e : StoredExpense) :
    rapidQueryPred c e = true ↔
      e.userId = c.userId ∧ c.date - 30 * 60 * 1000 ≤ e.createdAt ∧
        c.id ≠ some e.id := by
  simp [rapidQueryPred, notSelf_iff, and_assoc]

lemma filter_pos_iff {α : Type} (l : List α) (p : α → Bool) :
    0 < (l.filter p).length ↔ ∃ e ∈ l, p e = true := by
  rw [List.length_pos]
  constructor
  · intro hne
    obtain ⟨e, he⟩ := List.exists_mem_of_ne_nil _ hne
    exact ⟨e, (List.mem_filter.mp he).1, (List.mem_filter.mp he).2⟩
  · rintro ⟨e, hl, hp⟩ hnil
    have hm : e ∈ l.filter p := List.mem_filter.mpr ⟨hl, hp⟩
    rw [hnil] at hm
    exact absurd hm (List.not_mem_nil e)

lemma checkDuplicateAmounts_eq (s : Store) (c : Candidate) (h : s.dupFails = false) :
    checkDuplicateAmounts s c =
      (if 0 < (s.expenses.filter (dupQueryPred c)).length then
        { isFlagged := true
          reason := "Duplicate amount ($" ++ numStr c.amount ++ ") found within 60 minutes"
          relatedExpenses := (s.expenses.filter (dupQueryPred c)).map (fun e =>
            { id := e.id, date := e.date
              timeDifference := ((c.date - e.date).natAbs : ℚ) / (1000 * 60) }) }
      else unflagged) := by
  unfold checkDuplicateAmounts storeFind
  rw [h]
  simp

lemma checkDuplicateAmounts_failed (s : Store) (c : Candidate) (h : s.dupFails = true) :
    checkDuplicateAmounts s c = unflagged := by
  unfold checkDuplicateAmounts storeFind
  rw [h]
  simp

/-- Helper describing the value of checkSuspiciousPatterns when the
description query succeeds. -/
def patVerdict (now : Int) (s : Store) (c : Candidate) : Verdict :=
  let pats := patternFragments c.amount (descMatchCount now s c)
  if 0 < pats.length then
    { isFlagged := true, reason := String.intercalate "; " pats, relatedExpenses := [] }
  else unflagged

lemma checkSuspiciousPatterns_ok (now : Int) (s : Store) (c : Candidate)
    (h : s.descFails = false) :
    checkSuspiciousPatterns now s c = Except.ok (patVerdict now s c) := by
  unfold checkSuspiciousPatterns storeFind patVerdict descMatchCount
  rw [h]
  simp
  split <;> rfl

lemma checkSuspiciousPatterns_failed (now : Int) (s : Store) (c : Candidate)
    (h : s.descFails = true) :
    checkSuspiciousPatterns now s c = Except.error () := by
  unfold checkSuspiciousPatterns storeFind
  rw [h]
  simp

lemma checkRapidSubmissions_eq (s : Store) (c : Candidate) (h : s.rapidFails = false) :
    checkRapidSubmissions s c =
      (if 5 ≤ (s.expenses.filter (rapidQueryPred c)).length then
        { isFlagged := true
          reason := "Too many submissions (" ++
            toString ((s.expenses.filter (rapidQueryPred c)).length + 1) ++
            ") within 30 minutes"
          relatedExpenses := [] }
      else unflagged) := by
  unfold checkRapidSubmissions storeFind
  rw [h]
  simp

lemma checkRapidSubmissions_failed (s : Store) (c : Candidate) (h : s.rapidFails = true) :
    checkRapidSubmissions s c = unflagged := by
  unfold checkRapidSubmissions storeFind
  rw [h]
  simp

lemma dup_reason_flag (s : Store) (c : Candidate) :
    ((checkDuplicateAmounts s c).reason != "") = (checkDuplicateAmounts s c).isFlagged := by
  cases h : s.dupFails with
  | true => rw [checkDuplicateAmounts_failed s c h]; rfl
  | false =>
    rw [checkDuplicateAmounts_eq s c h]
    split
    · exact bne_empty_of_ne (append_ne_empty "Duplicate amount ($" _ (by decide))
    · rfl

lemma pat_reason_flag (now : Int) (s : Store) (c : Candidate) :
    ((patVerdict now s c).reason != "") = (patVerdict now s c).isFlagged := by
  unfold patVerdict patternFragments
  cases hr : roundNumberFires c.amount <;>
    by_cases hc : 2 < descMatchCount now s c <;>
      simp [hr, hc] <;> decide

lemma amt_reason_flag (c : Candidate) :
    ((checkAmountThresholds c).reason != "") = (checkAmountThresholds c).isFlagged := by
  unfold checkAmountThresholds
  split
  · exact bne_empty_of_ne (append_ne_empty "Very high amount ($" _ (by decide))
  split
  · exact bne_empty_of_ne (append_ne_empty "High amount ($" _ (by decide))
  · rfl

lemma rapid_reason_flag (s : Store) (c : Candidate) :
    ((checkRapidSubmissions s c).reason != "") = (checkRapidSubmissions s c).isFlagged := by
  cases h : s.rapidFails with
  | true => rw [checkRapidSubmissions_failed s c h]; rfl
  | false =>
    rw [checkRapidSubmissions_eq s c h]
    split
    · exact bne_empty_of_ne (append_ne_empty "Too many submissions (" _ (by decide))
    · rfl

lemma map_filter_reason (l : List Verdict)
    (h : ∀ v ∈ l, (v.reason != "") = v.isFlagged) :
    (l.map Verdict.reason).filter (fun r => r != "") =
      (l.filter Verdict.isFlagged).map Verdict.reason := by
  induction l with
  | nil => rfl
  | cons a t ih =>
    have ha := h a (List.mem_cons_self a t)
    have ht : ∀ v ∈ t, (v.reason != "") = v.isFlagged :=
      fun v hv => h v (List.mem_cons_of_mem a hv)
    cases hf : a.isFlagged <;>
      simp [List.filter_cons, List.map_cons, ha, hf, ih ht]

lemma results_filter (v1 v2 v3 v4 : Verdict) :
    (((if v1.isFlagged then [v1] else []) ++
      (if v2.isFlagged then [v2] else [])) ++
        (if v3.isFlagged then [v3] else [])) ++
          (if v4.isFlagged then [v4] else []) =
      [v1, v2, v3, v4].filter Verdict.isFlagged := by
  cases h1 : v1.isFlagged <;> cases h2 : v2.isFlagged <;>
    cases h3 : v3.isFlagged <;> cases h4 : v4.isFlagged <;>
      simp [List.filter_cons, h1, h2, h3, h4]

lemma filter_flag_or (v1 v2 v3 v4 : Verdict) :
    decide (0 < ([v1, v2, v3, v4].filter Verdict.isFlagged).length) =
      (v1.isFlagged || v2.isFlagged || v3.isFlagged || v4.isFlagged) := by
  cases h1 : v1.isFlagged <;> cases h2 : v2.isFlagged <;>
    cases h3 : v3.isFlagged <;> cases h4 : v4.isFlagged <;>
      simp [List.filter_cons, h1, h2, h3, h4]

lemma veryHigh_ne_high (x y : String) :
    "Very high amount ($" ++ x ++ ") requires additional review" ≠
      "High amount ($" ++ y ++ ") flagged for review" := by
  intro he
  have hd := congrArg String.data he
  rw [data_append, data_append, data_append, data_append] at hd
  rw [List.append_assoc, List.append_assoc] at hd
  have h1 : "Very high amount ($".data = 'V' :: "ery high amount ($".data := rfl
  have h2 : "High amount ($".data = 'H' :: "igh amount ($".data := rfl
  rw [h1, h2] at hd
  simp only [List.cons_append, List.cons.injEq] at hd
  exact absurd hd.1 (by decide)

/-- Claim C5: the Amount-Threshold check is a pure function of amount
alone; amount at least 5000 flags with the very-high reason and not the
high reason; amount in [1000, 5000) flags with the high reason; amount
below 1000 never flags. -/
theorem checkAmountThresholds_spec (c : Candidate) :
    (∀ c2 : Candidate, c2.amount = c.amount →
      checkAmountThresholds c2 = checkAmountThresholds c) ∧
    (5000 ≤ c.amount →
      checkAmountThresholds c =
        { isFlagged := true
          reason := "Very high amount ($" ++ numStr c.amount ++ ") requires additional review"
          relatedExpenses := [] } ∧
      (checkAmountThresholds c).reason ≠
        "High amount ($" ++ numStr c.amount ++ ") flagged for review") ∧
    (1000 ≤ c.amount → c.amount < 5000 →
      checkAmountThresholds c =
        { isFlagged := true
          reason := "High amount ($" ++ numStr c.amount ++ ") flagged for review"
          relatedExpenses := [] }) ∧
    (c.amount < 1000 → (checkAmountThresholds c).isFlagged = false) := by
  refine ⟨?_, ?_, ?_, ?_⟩
  · intro c2 h2
    unfold checkAmountThresholds
    rw [h2]
  · intro h5
    have he : checkAmountThresholds c =
        { isFlagged := true
          reason := "Very high amount ($" ++ numStr c.amount ++ ") requires additional review"
          relatedExpenses := [] } := by
      unfold checkAmountThresholds
      rw [if_pos h5]
    refine ⟨he, ?_⟩
    rw [he]
    exact veryHigh_ne_high (numStr c.amount) (numStr c.amount)
  · intro h1 h5
    unfold checkAmountThresholds
    rw [if_neg (not_le.mpr h5), if_pos h1]
  · intro h1
    unfold checkAmountThresholds
    rw [if_neg (not_le.mpr (lt_trans h1 (by norm_num))), if_neg (not_le.mpr h1)]
    rfl

/-- Witness for C5 at amount 5500. -/
theorem checkAmountThresholds_spec_witness :
    (5000 : ℚ) ≤ 5500 ∧
    checkAmountThresholds ⟨none, 1, 5500, "conference", 0⟩ =
      { isFlagged := true
        reason := "Very high amount ($" ++ numStr 5500 ++ ") requires additional review"
        relatedExpenses := [] } :=
  ⟨by decide, ((checkAmountThresholds_spec ⟨none, 1, 5500, "conference", 0⟩).2.1 (by decide)).1⟩

/-- Claim C3: the Duplicate-Amount check flags iff some historical record
of the same owner has exactly equal amount and date within plus or minus
60 minutes inclusive, excluding the candidate record itself; the flagged
reason is the duplicate-amount template. -/
theorem checkDuplicateAmounts_spec (s : Store) (c : Candidate) (h : s.dupFails = false) :
    ((checkDuplicateAmounts s c).isFlagged = true ↔
      ∃ e ∈ s.expenses, e.userId = c.userId ∧ e.amount = c.amount ∧
        c.date - 60 * 60 * 1000 ≤ e.date ∧ e.date ≤ c.date + 60 * 60 * 1000 ∧
        c.id ≠ some e.id) ∧
    ((checkDuplicateAmounts s c).isFlagged = true →
      (checkDuplicateAmounts s c).reason =
        "Duplicate amount ($" ++ numStr c.amount ++ ") found within 60 minutes") := by
  rw [checkDuplicateAmounts_eq s c h]
  by_cases hl : 0 < (s.expenses.filter (dupQueryPred c)).length
  · rw [if_pos hl]
    refine ⟨⟨fun _ => ?_, fun _ => rfl⟩, fun _ => rfl⟩
    rw [filter_pos_iff] at hl
    obtain ⟨e, he, hp⟩ := hl
    exact ⟨e, he, (dupQueryPred_iff c e).mp hp⟩
  · rw [if_neg hl]
    constructor
    · constructor
      · intro hf
        simp [unflagged] at hf
      · rintro ⟨e, he, hu, ha, h1, h2, hid⟩
        exact absurd ((filter_pos_iff _ _).mpr
          ⟨e, he, (dupQueryPred_iff c e).mpr ⟨hu, ha, h1, h2, hid⟩⟩) hl
    · intro hf
      simp [unflagged] at hf

/-- Witness for C3: one stored record of the same owner with equal
amount 15 minutes later. -/
theorem checkDuplicateAmounts_spec_witness :
    (⟨[⟨2, 7, 10, "cab", 900000, 900000, false, "pending"⟩],
        false, false, false, false⟩ : Store).dupFails = false ∧
    (((checkDuplicateAmounts
        ⟨[⟨2, 7, 10, "cab", 900000, 900000, false, "pending"⟩],
          false, false, false, false⟩ ⟨some 1, 7, 10, "cab", 0⟩).isFlagged = true ↔
      ∃ e ∈ (⟨[⟨2, 7, 10, "cab", 900000, 900000, false, "pending"⟩],
          false, false, false, false⟩ : Store).expenses,
        e.userId = (⟨some 1, 7, 10, "cab", 0⟩ : Candidate).userId ∧
        e.amount = (⟨some 1, 7, 10, "cab", 0⟩ : Candidate).amount ∧
        (⟨some 1, 7, 10, "cab", 0⟩ : Candidate).date - 60 * 60 * 1000 ≤ e.date ∧
        e.date ≤ (⟨some 1, 7, 10, "cab", 0⟩ : Candidate).date + 60 * 60 * 1000 ∧
        (⟨some 1, 7, 10, "cab", 0⟩ : Candidate).id ≠ some e.id) ∧
    ((checkDuplicateAmounts
        ⟨[⟨2, 7, 10, "cab", 900000, 900000, false, "pending"⟩],
          false, false, false, false⟩ ⟨some 1, 7, 10, "cab", 0⟩).isFlagged = true →
      (checkDuplicateAmounts
        ⟨[⟨2, 7, 10, "cab", 900000, 900000, false, "pending"⟩],
          false, false, false, false⟩ ⟨some 1, 7, 10, "cab", 0⟩).reason =
        "Duplicate amount ($" ++ numStr (⟨some 1, 7, 10, "cab", 0⟩ : Candidate).amount ++
          ") found within 60 minutes")) :=
  ⟨rfl, checkDuplicateAmounts_spec _ _ rfl⟩

/-- Claim C6: the Rapid-Submission check flags exactly when at least 5
same-owner records have creation timestamp at or after the candidate date
minus 30 minutes, excluding the candidate record itself; the flagged
reason counts the candidate too. -/
theorem checkRapidSubmissions_spec (s : Store) (c : Candidate) (h : s.rapidFails = false) :
    (∀ e : StoredExpense, rapidQueryPred c e = true ↔
      e.userId = c.userId ∧ c.date - 30 * 60 * 1000 ≤ e.createdAt ∧ c.id ≠ some e.id) ∧
    ((checkRapidSubmissions s c).isFlagged = true ↔ 5 ≤ rapidMatchCount s c) ∧
    (5 ≤ rapidMatchCount s c →
      (checkRapidSubmissions s c).reason =
        "Too many submissions (" ++ toString (rapidMatchCount s c + 1) ++
          ") within 30 minutes") := by
  refine ⟨fun e => rapidQueryPred_iff c e, ?_⟩
  rw [checkRapidSubmissions_eq s c h]
  unfold rapidMatchCount
  by_cases hl : 5 ≤ (s.expenses.filter (rapidQueryPred c)).length
  · rw [if_pos hl]
    exact ⟨⟨fun _ => hl, fun _ => rfl⟩, fun _ => rfl⟩
  · rw [if_neg hl]
    refine ⟨⟨fun hf => ?_, fun hx => absurd hx hl⟩, fun hx => absurd hx hl⟩
    simp [unflagged] at hf

/-- Witness for C6: five stored records created within the window. -/
theorem checkRapidSubmissions_spec_witness :
    (⟨[⟨2, 4, 10, "a", 0, -100, false, "pending"⟩,
        ⟨3, 4, 11, "b", 0, -200, false, "pending"⟩,
        ⟨4, 4, 12, "c", 0, -300, false, "pending"⟩,
        ⟨5, 4, 13, "d", 0, -400, false, "pending"⟩,
        ⟨6, 4, 14, "e", 0, -500, false, "pending"⟩],
        false, false, false, false⟩ : Store).rapidFails = false ∧
    ((checkRapidSubmissions
        ⟨[⟨2, 4, 10, "a", 0, -100, false, "pending"⟩,
          ⟨3, 4, 11, "b", 0, -200, false, "pending"⟩,
          ⟨4, 4, 12, "c", 0, -300, false, "pending"⟩,
          ⟨5, 4, 13, "d", 0, -400, false, "pending"⟩,
          ⟨6, 4, 14, "e", 0, -500, false, "pending"⟩],
          false, false, false, false⟩ ⟨none, 4, 20, "f", 0⟩).isFlagged = true ↔
      5 ≤ rapidMatchCount
        ⟨[⟨2, 4, 10, "a", 0, -100, false, "pending"⟩,
          ⟨3, 4, 11, "b", 0, -200, false, "pending"⟩,
          ⟨4, 4, 12, "c", 0, -300, false, "pending"⟩,
          ⟨5, 4, 13, "d", 0, -400, false, "pending"⟩,
          ⟨6, 4, 14, "e", 0, -500, false, "pending"⟩],
          false, false, false, false⟩ ⟨none, 4, 20, "f", 0⟩) :=
  ⟨rfl, ((checkRapidSubmissions_spec _ _ rfl).2.1)⟩

lemma roundNumberFires_iff (a : ℚ) :
    roundNumberFires a = true ↔
      (jsMod a 100 = 0 ∨ jsMod a 50 = 0 ∨ jsMod a 25 = 0) := by
  simp [roundNumberFires, or_assoc]

lemma patVerdict_flagged (now : Int) (s : Store) (c : Candidate)
    (hp : 0 < (patternFragments c.amount (descMatchCount now s c)).length) :
    patVerdict now s c =
      { isFlagged := true
        reason := String.intercalate "; " (patternFragments c.amount (descMatchCount now s c))
        relatedExpenses := [] } := by
  unfold patVerdict
  rw [if_pos hp]

/-- Claim C4: the repeated-description sub-check fires exactly when the
count of same-owner records matching the description case-insensitively,
created in the last 7 days and excluding the candidate record, exceeds 2;
it then contributes the similar-descriptions fragment. -/
theorem checkSuspiciousPatterns_description_spec (now : Int) (s : Store) (c : Candidate)
    (h : s.descFails = false) :
    (∀ e : StoredExpense, descQueryPred now c e = true ↔
      e.userId = c.userId ∧ descMatchesCI c.description e.description = true ∧
        c.id ≠ some e.id ∧ now - 7 * 24 * 60 * 60 * 1000 ≤ e.createdAt) ∧
    ∃ v, checkSuspiciousPatterns now s c = Except.ok v ∧
      ((2 < descMatchCount now s c) ↔
        "Similar descriptions in recent submissions" ∈
          patternFragments c.amount (descMatchCount now s c)) ∧
      (2 < descMatchCount now s c →
        v.isFlagged = true ∧
        v.reason = String.intercalate "; "
          (patternFragments c.amount (descMatchCount now s c))) := by
  refine ⟨fun e => descQueryPred_iff now c e,
    patVerdict now s c, checkSuspiciousPatterns_ok now s c h, ?_, ?_⟩
  · by_cases hc : 2 < descMatchCount now s c <;>
      cases hr : roundNumberFires c.amount <;>
        simp [patternFragments, hc, hr]
  · intro hc
    have hp : 0 < (patternFragments c.amount (descMatchCount now s c)).length := by
      unfold patternFragments
      cases hr : roundNumberFires c.amount <;> simp [hc]
    rw [patVerdict_flagged now s c hp]
    exact ⟨rfl, rfl⟩

/-- Witness for C4: three same-owner records matching the description. -/
theorem checkSuspiciousPatterns_description_spec_witness :
    (⟨[⟨2, 9, 7, "LUNCH a", -100, -100, false, "pending"⟩,
        ⟨3, 9, 7, "x lunch", -100, -100, false, "pending"⟩,
        ⟨4, 9, 7, "lunchx", -100, -100, false, "pending"⟩],
        false, false, false, false⟩ : Store).descFails = false ∧
    ∃ v, checkSuspiciousPatterns 0
        ⟨[⟨2, 9, 7, "LUNCH a", -100, -100, false, "pending"⟩,
          ⟨3, 9, 7, "x lunch", -100, -100, false, "pending"⟩,
          ⟨4, 9, 7, "lunchx", -100, -100, false, "pending"⟩],
          false, false, false, false⟩ ⟨none, 9, 7, "lunch", 0⟩ = Except.ok v ∧
      ((2 < descMatchCount 0
          ⟨[⟨2, 9, 7, "LUNCH a", -100, -100, false, "pending"⟩,
            ⟨3, 9, 7, "x lunch", -100, -100, false, "pending"⟩,
            ⟨4, 9, 7, "lunchx", -100, -100, false, "pending"⟩],
            false, false, false, false⟩ ⟨none, 9, 7, "lunch", 0⟩) ↔
        "Similar descriptions in recent submissions" ∈
          patternFragments 7 (descMatchCount 0
            ⟨[⟨2, 9, 7, "LUNCH a", -100, -100, false, "pending"⟩,
              ⟨3, 9, 7, "x lunch", -100, -100, false, "pending"⟩,
              ⟨4, 9, 7, "lunchx", -100, -100, false, "pending"⟩],
              false, false, false, false⟩ ⟨none, 9, 7, "lunch", 0⟩)) ∧
      (2 < descMatchCount 0
          ⟨[⟨2, 9, 7, "LUNCH a", -100, -100, false, "pending"⟩,
            ⟨3, 9, 7, "x lunch", -100, -100, false, "pending"⟩,
            ⟨4, 9, 7, "lunchx", -100, -100, false, "pending"⟩],
            false, false, false, false⟩ ⟨none, 9, 7, "lunch", 0⟩ →
        v.isFlagged = true ∧
        v.reason = String.intercalate "; "
          (patternFragments 7 (descMatchCount 0
            ⟨[⟨2, 9, 7, "LUNCH a", -100, -100, false, "pending"⟩,
              ⟨3, 9, 7, "x lunch", -100, -100, false, "pending"⟩,
              ⟨4, 9, 7, "lunchx", -100, -100, false, "pending"⟩],
              false, false, false, false⟩ ⟨none, 9, 7, "lunch", 0⟩))) :=
  ⟨rfl, (checkSuspiciousPatterns_description_spec 0 _ _ rfl).2⟩

/-- Claim C7: the round-number sub-check fires exactly when the amount
satisfies one of the three JS remainder conditions, contributing the
round-number fragment. -/
theorem checkSuspiciousPatterns_round_spec (now : Int) (s : Store) (c : Candidate)
    (h : s.descFails = false) :
    ∃ v, checkSuspiciousPatterns now s c = Except.ok v ∧
      ((jsMod c.amount 100 = 0 ∨ jsMod c.amount 50 = 0 ∨ jsMod c.amount 25 = 0) ↔
        "Round number amount" ∈
          patternFragments c.amount (descMatchCount now s c)) ∧
      ((jsMod c.amount 100 = 0 ∨ jsMod c.amount 50 = 0 ∨ jsMod c.amount 25 = 0) →
        v.isFlagged = true ∧
        v.reason = String.intercalate "; "
          (patternFragments c.amount (descMatchCount now s c))) := by
  refine ⟨patVerdict now s c, checkSuspiciousPatterns_ok now s c h, ?_, ?_⟩
  · rw [← roundNumberFires_iff]
    by_cases hc : 2 < descMatchCount now s c <;>
      cases hr : roundNumberFires c.amount <;>
        simp [patternFragments, hc, hr]
  · intro hj
    have hr : roundNumberFires c.amount = true := (roundNumberFires_iff c.amount).mpr hj
    have hp : 0 < (patternFragments c.amount (descMatchCount now s c)).length := by
      unfold patternFragments
      by_cases hc : 2 < descMatchCount now s c <;> simp [hc, hr]
    rw [patVerdict_flagged now s c hp]
    exact ⟨rfl, rfl⟩

/-- Witness for C7 at the round amount 250 with no history. -/
theorem checkSuspiciousPatterns_round_spec_witness :
    (⟨[], false, false, false, false⟩ : Store).descFails = false ∧
    ∃ v, checkSuspiciousPatterns 0 ⟨[], false, false, false, false⟩
        ⟨none, 1, 250, "team lunch", 0⟩ = Except.ok v ∧
      ((jsMod 250 100 = 0 ∨ jsMod 250 50 = 0 ∨ jsMod 250 25 = 0) ↔
        "Round number amount" ∈
          patternFragments 250 (descMatchCount 0 ⟨[], false, false, false, false⟩
            ⟨none, 1, 250, "team lunch", 0⟩)) ∧
      ((jsMod 250 100 = 0 ∨ jsMod 250 50 = 0 ∨ jsMod 250 25 = 0) →
        v.isFlagged = true ∧
        v.reason = String.intercalate "; "
          (patternFragments 250 (descMatchCount 0 ⟨[], false, false, false, false⟩
            ⟨none, 1, 250, "team lunch", 0⟩))) :=
  ⟨rfl, checkSuspiciousPatterns_round_spec 0 _ _ rfl⟩

lemma detectFraud_ok (now : Int) (s : Store) (c : Candidate) (h : s.descFails = false) :
    detectFraud now s c = Except.ok
      { isFlagged := decide (0 <
          ([checkDuplicateAmounts s c, patVerdict now s c, checkAmountThresholds c,
            checkRapidSubmissions s c].filter Verdict.isFlagged).length)
        reason := String.intercalate "; "
          (([checkDuplicateAmounts s c, patVerdict now s c, checkAmountThresholds c,
            checkRapidSubmissions s c].filter Verdict.isFlagged).map Verdict.reason)
        details := [checkDuplicateAmounts s c, patVerdict now s c, checkAmountThresholds c,
          checkRapidSubmissions s c].filter Verdict.isFlagged } := by
  unfold detectFraud
  rw [checkSuspiciousPatterns_ok now s c h]
  dsimp only
  rw [results_filter]

/-- Claim C2: the Coordinator decision is the OR of the four verdicts,
the join of the non-empty reasons in the fixed evaluator order, and the
list of the flagged verdicts in evaluation order. -/
theorem detectFraud_aggregation (now : Int) (s : Store) (c : Candidate)
    (h : s.descFails = false) :
    ∃ pat d,
      checkSuspiciousPatterns now s c = Except.ok pat ∧
      detectFraud now s c = Except.ok d ∧
      d.isFlagged =
        ((checkDuplicateAmounts s c).isFlagged || pat.isFlagged ||
          (checkAmountThresholds c).isFlagged || (checkRapidSubmissions s c).isFlagged) ∧
      d.reason = String.intercalate "; "
        (([checkDuplicateAmounts s c, pat, checkAmountThresholds c,
            checkRapidSubmissions s c].map Verdict.reason).filter (fun r => r != "")) ∧
      d.details = [checkDuplicateAmounts s c, pat, checkAmountThresholds c,
        checkRapidSubmissions s c].filter Verdict.isFlagged := by
  refine ⟨patVerdict now s c, _, checkSuspiciousPatterns_ok now s c h,
    detectFraud_ok now s c h, ?_, ?_, rfl⟩
  · exact filter_flag_or _ _ _ _
  · have hmem : ∀ v ∈ [checkDuplicateAmounts s c, patVerdict now s c,
        checkAmountThresholds c, checkRapidSubmissions s c],
        (v.reason != "") = v.isFlagged := by
      intro v hv
      simp only [List.mem_cons, List.not_mem_nil, or_false] at hv
      rcases hv with h1 | h2 | h3 | h4
      · rw [h1]; exact dup_reason_flag s c
      · rw [h2]; exact pat_reason_flag now s c
      · rw [h3]; exact amt_reason_flag c
      · rw [h4]; exact rapid_reason_flag s c
    exact congrArg (String.intercalate "; ") (map_filter_reason _ hmem).symm

/-- Witness for C2 on a store and candidate where two evaluators flag. -/
theorem detectFraud_aggregation_witness :
    (⟨[], false, false, false, false⟩ : Store).descFails = false ∧
    ∃ pat d,
      checkSuspiciousPatterns 0 ⟨[], false, false, false, false⟩
        ⟨none, 3, 5000, "gear", 0⟩ = Except.ok pat ∧
      detectFraud 0 ⟨[], false, false, false, false⟩
        ⟨none, 3, 5000, "gear", 0⟩ = Except.ok d ∧
      d.isFlagged =
        ((checkDuplicateAmounts ⟨[], false, false, false, false⟩
            ⟨none, 3, 5000, "gear", 0⟩).isFlagged || pat.isFlagged ||
          (checkAmountThresholds ⟨none, 3, 5000, "gear", 0⟩).isFlagged ||
          (checkRapidSubmissions ⟨[], false, false, false, false⟩
            ⟨none, 3, 5000, "gear", 0⟩).isFlagged) ∧
      d.reason = String.intercalate "; "
        (([checkDuplicateAmounts ⟨[], false, false, false, false⟩
              ⟨none, 3, 5000, "gear", 0⟩, pat,
            checkAmountThresholds ⟨none, 3, 5000, "gear", 0⟩,
            checkRapidSubmissions ⟨[], false, false, false, false⟩
              ⟨none, 3, 5000, "gear", 0⟩].map Verdict.reason).filter (fun r => r != "")) ∧
      d.details = [checkDuplicateAmounts ⟨[], false, false, false, false⟩
          ⟨none, 3, 5000, "gear", 0⟩, pat,
        checkAmountThresholds ⟨none, 3, 5000, "gear", 0⟩,
        checkRapidSubmissions ⟨[], false, false, false, false⟩
          ⟨none, 3, 5000, "gear", 0⟩].filter Verdict.isFlagged :=
  ⟨rfl, detectFraud_aggregation 0 _ _ rfl⟩

/-- Claim C1 counterexample: with a store whose description query throws,
detectFraud itself throws, so the failure is not caught inside the
Suspicious-Pattern evaluator. -/
theorem detectFraud_desc_failure_cex :
    detectFraud 0 ⟨[], false, true, false, false⟩ ⟨none, 1, 10, "taxi", 0⟩ =
      Except.error () := rfl

/-- Claim C1 (amended): detectFraud throws exactly when the
Suspicious-Pattern description query fails; failures of the
Duplicate-Amount and Rapid-Submission queries are caught internally and
never make detectFraud throw. -/
theorem detectFraud_error_iff (now : Int) (s : Store) (c : Candidate) :
    detectFraud now s c = Except.error () ↔ s.descFails = true := by
  cases h : s.descFails with
  | true =>
    unfold detectFraud
    rw [checkSuspiciousPatterns_failed now s c h]
    simp
  | false =>
    rw [detectFraud_ok now s c h]
    simp

/-- Claim C9: a persisted candidate is excluded from every evaluator
query result, and screening it against a store containing only its own
record produces no history-based flag. -/
theorem selfExclusion_spec (now : Int) (s : Store) (c : Candidate) (i : Nat)
    (h : c.id = some i) :
    (∀ e ∈ s.expenses.filter (dupQueryPred c), e.id ≠ i) ∧
    (∀ e ∈ s.expenses.filter (descQueryPred now c), e.id ≠ i) ∧
    (∀ e ∈ s.expenses.filter (rapidQueryPred c), e.id ≠ i) ∧
    (∀ e : StoredExpense, e.id = i →
      checkDuplicateAmounts ⟨[e], false, false, false, false⟩ c = unflagged ∧
      checkRapidSubmissions ⟨[e], false, false, false, false⟩ c = unflagged ∧
      descMatchCount now ⟨[e], false, false, false, false⟩ c = 0) := by
  have hne : ∀ e : StoredExpense, c.id ≠ some e.id → e.id ≠ i := by
    intro e hn he
    apply hn
    rw [h, he]
  refine ⟨?_, ?_, ?_, ?_⟩
  · intro e he
    exact hne e ((dupQueryPred_iff c e).mp (List.mem_filter.mp he).2).2.2.2.2
  · intro e he
    exact hne e ((descQueryPred_iff now c e).mp (List.mem_filter.mp he).2).2.2.1
  · intro e he
    exact hne e ((rapidQueryPred_iff c e).mp (List.mem_filter.mp he).2).2.2
  · intro e hei
    have hns : notSelf c.id e = false := by
      rw [h]
      simp [notSelf, hei]
    have hdup : (([e] : List StoredExpense).filter (dupQueryPred c)) = [] := by
      simp [List.filter, dupQueryPred, hns]
    have hrapid : (([e] : List StoredExpense).filter (rapidQueryPred c)) = [] := by
      simp [List.filter, rapidQueryPred, hns]
    have hdesc : (([e] : List StoredExpense).filter (descQueryPred now c)) = [] := by
      simp [List.filter, descQueryPred, hns]
    refine ⟨?_, ?_, ?_⟩
    · rw [checkDuplicateAmounts_eq _ _ rfl]
      have hex : (⟨[e], false, false, false, false⟩ : Store).expenses = [e] := rfl
      rw [hex, hdup]
      rfl
    · rw [checkRapidSubmissions_eq _ _ rfl]
      have hex : (⟨[e], false, false, false, false⟩ : Store).expenses = [e] := rfl
      rw [hex, hrapid]
      rfl
    · unfold descMatchCount
      have hex : (⟨[e], false, false, false, false⟩ : Store).expenses = [e] := rfl
      rw [hex, hdesc]
      rfl

/-- Witness for C9 at a concrete persisted candidate and its own record. -/
theorem selfExclusion_spec_witness :
    (⟨some 5, 2, 40, "parking", 0⟩ : Candidate).id = some 5 ∧
    ((∀ e ∈ (⟨[⟨5, 2, 40, "parking", 0, 0, false, "pending"⟩],
        false, false, false, false⟩ : Store).expenses.filter
          (dupQueryPred ⟨some 5, 2, 40, "parking", 0⟩), e.id ≠ 5) ∧
    (∀ e ∈ (⟨[⟨5, 2, 40, "parking", 0, 0, false, "pending"⟩],
        false, false, false, false⟩ : Store).expenses.filter
          (descQueryPred 0 ⟨some 5, 2, 40, "parking", 0⟩), e.id ≠ 5) ∧
    (∀ e ∈ (⟨[⟨5, 2, 40, "parking", 0, 0, false, "pending"⟩],
        false, false, false, false⟩ : Store).expenses.filter
          (rapidQueryPred ⟨some 5, 2, 40, "parking", 0⟩), e.id ≠ 5) ∧
    (∀ e : StoredExpense, e.id = 5 →
      checkDuplicateAmounts ⟨[e], false, false, false, false⟩
        ⟨some 5, 2, 40, "parking", 0⟩ = unflagged ∧
      checkRapidSubmissions ⟨[e], false, false, false, false⟩
        ⟨some 5, 2, 40, "parking", 0⟩ = unflagged ∧
      descMatchCount 0 ⟨[e], false, false, false, false⟩
        ⟨some 5, 2, 40, "parking", 0⟩ = 0)) :=
  ⟨rfl, selfExclusion_spec 0
    ⟨[⟨5, 2, 40, "parking", 0, 0, false, "pending"⟩], false, false, false, false⟩
    ⟨some 5, 2, 40, "parking", 0⟩ 5 rfl⟩

/-- Claim C8: on an empty store getFraudStatistics returns all-zero
counts but puts the JS number 0 into fraudRate, not the string "0" that
the specification (and the repository's own ExpenseStats interface,
which declares fraudRate as a string) requires. -/
theorem getFraudStatistics_empty_store_bug :
    getFraudStatistics ⟨[], false, false, false, false⟩ =
      { totalExpenses := 0, flaggedExpenses := 0, pendingReview := 0
        fraudRate := JsVal.num 0 } ∧
    (getFraudStatistics ⟨[], false, false, false, false⟩).fraudRate ≠ JsVal.str "0" := by
  constructor
  · rfl
  · intro hcontra
    exact absurd hcontra (by decide)

/-- Claim C10: when the count queries fail, getFraudStatistics catches
the error and returns the all-zero fallback with the number 0 as
fraudRate, indistinguishable from the statistics of an empty store. -/
theorem getFraudStatistics_failure_spec (s : Store) (h : s.countFails = true) :
    getFraudStatistics s =
      { totalExpenses := 0, flaggedExpenses := 0, pendingReview := 0
        fraudRate := JsVal.num 0 } ∧
    getFraudStatistics s = getFraudStatistics ⟨[], false, false, false, false⟩ := by
  unfold getFraudStatistics
  rw [h]
  exact ⟨rfl, rfl⟩

/-- Witness for C10 on a non-empty store whose count queries fail. -/
theorem getFraudStatistics_failure_spec_witness :
    (⟨[⟨1, 1, 10, "taxi", 0, 0, true, "pending"⟩],
        false, false, false, true⟩ : Store).countFails = true ∧
    (getFraudStatistics ⟨[⟨1, 1, 10, "taxi", 0, 0, true, "pending"⟩],
        false, false, false, true⟩ =
      { totalExpenses := 0, flaggedExpenses := 0, pendingReview := 0
        fraudRate := JsVal.num 0 } ∧
    getFraudStatistics ⟨[⟨1, 1, 10, "taxi", 0, 0, true, "pending"⟩],
        false, false, false, true⟩ =
      getFraudStatistics ⟨[], false, false, false, false⟩) :=
  ⟨rfl, getFraudStatistics_failure_spec _ rfl⟩
